import Mathlib

/-!
Verification of the llm-visibility-tool serverless handlers.

The repository contains three near-duplicate request handlers:
* `src/llm-tool/api/analyze.js` — the commercial variant (API key check,
  rate limiting via an external key-value store, SSRF blocking);
* `src/unnamed/part_000` — the compact open variant;
* `src/unnamed/part_001` — the verbose open variant.

This file gives a shallow embedding of the three handlers.  Platform
dependencies (the WHATWG `URL` parser, the `fetch` API, the key-value
store) are modelled explicitly: `fetch` becomes an oracle
`String → FetchEvent` (one event per requested URL; a timeout that fires
is the `abortError` event), the key-value store becomes a pair of maps
from keys to counters and expiries, and the fragment of `URL` parsing the
handlers exercise (http/https URLs) is modelled by executable functions.
Time-valued response fields (ISO timestamps) are abstracted as the
decimal rendering of a `now : Nat` parameter.
-/

namespace LLMVis

/-! ### Character-list string primitives (executable, kernel-reducible) -/

/-- `listStarts l p` is true when `p` is an initial segment of `l`. -/
def listStarts : List Char → List Char → Bool
  | _, [] => true
  | [], _ :: _ => false
  | a :: as, b :: bs => a == b && listStarts as bs

/-- Substring occurrence test on character lists. -/
def hasSub : List Char → List Char → Bool
  | [], pat => pat.isEmpty
  | a :: as, pat => listStarts (a :: as) pat || hasSub as pat

/-- `strStarts s p`: does `s` start with `p`?  (JS `String.startsWith`.) -/
def strStarts (s p : String) : Bool := listStarts s.data p.data

/-- `strHas s p`: does `s` contain `p`?  (JS `String.includes`.) -/
def strHas (s p : String) : Bool := hasSub s.data p.data

/-- Lowercase a string character-wise (kernel-reducible `toLowerCase`). -/
def lcString (s : String) : String := ⟨s.data.map Char.toLower⟩

/-- Case-insensitive version of `strStarts` (for the `/^localhost/i` test). -/
def lcStarts (s p : String) : Bool :=
  listStarts (s.data.map Char.toLower) (p.data.map Char.toLower)

/-- Drop the first `n` characters of `s`. -/
def strDrop (s : String) (n : Nat) : String := ⟨s.data.drop n⟩

/-- JS `String.prototype.trim`: strip whitespace from both ends. -/
def strTrim (s : String) : String :=
  ⟨((s.data.dropWhile Char.isWhitespace).reverse.dropWhile Char.isWhitespace).reverse⟩

/-- `u.replace(/^https?:\/\//, '')`: strip one leading `http://` or `https://`. -/
def stripScheme (s : String) : String :=
  if strStarts s "https://" then strDrop s 8
  else if strStarts s "http://" then strDrop s 7
  else s

/-- `u.replace(/\/$/, '')`: strip one trailing slash. -/
def dropTrailSlash (s : String) : String :=
  match s.data.getLast? with
  | some '/' => ⟨s.data.dropLast⟩
  | _ => s

/-- Take characters until one of `stops` (used for URL authority parsing). -/
def takeUntilChars (s : String) (stops : List Char) : String :=
  ⟨s.data.takeWhile (fun c => !(stops.contains c))⟩

/-! ### A model of the WHATWG `URL` platform parser

The handlers call `new URL(...)`; the fragment they exercise is http/https
URLs.  The model below captures: scheme recognition, the requirement that
special schemes carry a non-empty host, authority splitting (userinfo
before the last `@`, port after `:`).  Host canonicalisation (lowercasing,
IPv4 normal forms) is not modelled; all inputs used in the theorems are
already canonical. -/

/-- Characters allowed in a URL scheme after the first (alphabetic) one. -/
def isSchemeChar (c : Char) : Bool := c.isAlphanum || c == '+' || c == '-' || c == '.'

/-- Split `s` into `(scheme, rest-after-colon)` when it has a scheme prefix. -/
def schemeSplit (s : String) : Option (String × String) :=
  match s.data with
  | [] => none
  | c :: rest =>
    if c.isAlpha then
      let schRest := rest.takeWhile isSchemeChar
      match rest.drop schRest.length with
      | ':' :: tail => some (⟨c :: schRest⟩, ⟨tail⟩)
      | _ => none
    else none

/-- Schemes for which the URL standard requires a non-empty host. -/
def isSpecialScheme (sch : String) : Bool :=
  ["http", "https", "ws", "wss", "ftp"].contains (lcString sch)

/-- Does `new URL(s)` succeed?  (Scheme present; special schemes need a
non-empty host after the slashes.) -/
def jsURLParses (s : String) : Bool :=
  match schemeSplit s with
  | none => false
  | some (sch, rest) =>
    if isSpecialScheme sch then
      !(takeUntilChars ⟨rest.data.dropWhile (· == '/')⟩ ['/', '?', '#']).isEmpty
    else true

/-- The host part of an authority: after the last `@`, before the `:` port. -/
def hostFromAuthority (a : String) : String :=
  let afterAt : List Char := (a.data.splitOn '@').getLastD []
  ⟨afterAt.takeWhile (fun c => !(c == ':'))⟩

/-- The authority (userinfo+host+port) of an http/https URL string. -/
def authorityOf (s : String) : Option String :=
  let rest :=
    if strStarts s "https://" then some (strDrop s 8)
    else if strStarts s "http://" then some (strDrop s 7)
    else none
  match rest with
  | none => none
  | some r =>
    let a := takeUntilChars r ['/', '?', '#']
    if a == "" then none else some a

/-- `new URL(s).hostname` for the http/https URLs the handlers build. -/
def urlHostname (s : String) : String :=
  match authorityOf s with
  | some a => hostFromAuthority a
  | none => ""

/-- The origin `scheme://authority` of an http/https URL string; `none`
models the `URL` constructor throwing. -/
def urlOrigin (s : String) : Option String :=
  match authorityOf s with
  | some a =>
    if strStarts s "https://" then some ("https://" ++ a)
    else some ("http://" ++ a)
  | none => none

/-- `new URL(s)` destructured as `{ protocol, hostname }` (protocol keeps the
trailing colon, as in JS).  `none` models the constructor throwing; only
http/https URLs are modelled, which is the fragment the open handler
reaches after its own normalisation. -/
def parseURL (s : String) : Option (String × String) :=
  match authorityOf s with
  | some a =>
    if strStarts s "https://" then some ("https:", hostFromAuthority a)
    else some ("http:", hostFromAuthority a)
  | none => none

/-! ### The commercial variant's URL cleaning and SSRF block list
(src/llm-tool/api/analyze.js, lines 114–138) -/

/-- `url.trim().replace(/^https?:\/\//, '').replace(/\/$/, '')`. -/
def commercialStrip (u : String) : String :=
  dropTrailSlash (stripScheme (strTrim u))

/-- The `/^172\.(1[6-9]|2[0-9]|3[0-1])\./` pattern of the block list. -/
def blocked172 : List Char → Bool
  | '1' :: '7' :: '2' :: '.' :: a :: b :: '.' :: _ =>
    (a == '1' && ('6' ≤ b && b ≤ '9')) ||
    (a == '2' && ('0' ≤ b && b ≤ '9')) ||
    (a == '3' && (b == '0' || b == '1'))
  | _ => false

/-- `blockedPatterns.some(pattern => pattern.test(targetUrl))`: the six
anchored regexes of the commercial SSRF guard, applied to the cleaned
input string. -/
def blockedTest (s : String) : Bool :=
  lcStarts s "localhost" || strStarts s "127." || strStarts s "10." ||
  strStarts s "192.168." || blocked172 s.data || strStarts s "0.0.0.0"

/-- The commercial variant's final target: cleaned input, with `https://`
prepended when no scheme remains (lines 136–138). -/
def commercialTarget (u : String) : String :=
  let t := commercialStrip u
  if !(strStarts t "http://") && !(strStarts t "https://") then "https://" ++ t
  else t

/-- The open variants' `normalize` (src/unnamed/part_000, lines 21–24):
keep a string the `URL` constructor accepts, otherwise strip any scheme
and trailing slash and prepend `https://`. -/
def normalize (u : String) : String :=
  if jsURLParses u then u
  else "https://" ++ dropTrailSlash (stripScheme u)

/-! ### Spec-side predicate for C4/C10

The spec describes the SSRF guard as matching the *hostname* against
`localhost`, `127.0.0.0/8`, `10.0.0.0/8`, `172.16.0.0/12`,
`192.168.0.0/16`, `0.0.0.0`.  `specPrivateHost` follows the spec's words
(it is the spec-side half of the refinement comparison; the code-side
half is `blockedTest` above). -/

/-- Split a character list at the dots. -/
def splitDots : List Char → List (List Char)
  | [] => [[]]
  | '.' :: rest => [] :: splitDots rest
  | c :: rest =>
    match splitDots rest with
    | [] => [[c]]
    | g :: gs => (c :: g) :: gs

/-- Parse a decimal IPv4 component (non-empty, all digits, ≤ 255). -/
def parseByte (l : List Char) : Option Nat :=
  if l.isEmpty then none
  else if l.all Char.isDigit then
    let v := l.foldl (fun acc c => acc * 10 + (c.toNat - 48)) 0
    if v ≤ 255 then some v else none
  else none

/-- Parse a dotted-quad IPv4 hostname. -/
def ipv4Of (h : String) : Option (Nat × Nat × Nat × Nat) :=
  match splitDots h.data with
  | [a, b, c, d] =>
    match parseByte a, parseByte b, parseByte c, parseByte d with
    | some a, some b, some c, some d => some (a, b, c, d)
    | _, _, _, _ => none
  | _ => none

/-- Follows the spec's words (§4.2): the hostname matches `localhost`,
`127.0.0.0/8`, `10.0.0.0/8`, `172.16.0.0/12`, `192.168.0.0/16`, or
`0.0.0.0`. -/
def specPrivateHost (h : String) : Bool :=
  lcString h == "localhost" ||
  (match ipv4Of h with
   | some (a, b, c, d) =>
     a == 127 || a == 10 || (a == 172 && (16 ≤ b && b ≤ 31)) ||
     (a == 192 && b == 168) || (a == 0 && b == 0 && c == 0 && d == 0)
   | none => false)

/-! ### The external key-value store (`@vercel/kv`)

Modelled as maps from keys to counter values and to expiry settings; the
handler only relies on `incr` (atomic increment returning the new value)
and `expire`. -/

/-- State of the external counter store. -/
structure KV where
  counters : String → Nat
  expiries : String → Option Nat

/-- `kv.incr(k)`: increment the counter at `k` (absent counters read 0). -/
def kvIncr (kv : KV) (k : String) : KV :=
  { kv with counters := fun x => if x = k then kv.counters k + 1 else kv.counters x }

/-- `kv.expire(k, secs)`. -/
def kvExpire (kv : KV) (k : String) (secs : Nat) : KV :=
  { kv with expiries := fun x => if x = k then some secs else kv.expiries x }

/-- The empty store (all counters 0, no expiries). -/
def kv0 : KV := { counters := fun _ => 0, expiries := fun _ => none }

/-! ### The `fetch` platform call

One outbound `fetch` is modelled as an oracle from the requested URL to
the event the handler observes: a normal response, an `AbortError`
(raised when the handler's own timeout fired and aborted the in-flight
request), or another thrown error. -/

/-- A settled upstream response as the handler sees it. -/
structure FetchResp where
  status : Nat
  statusText : String
  contentType : Option String
  body : String
  finalUrl : String
  deriving DecidableEq

/-- What one `await fetch(url, ...)` produces. -/
inductive FetchEvent where
  | ok (r : FetchResp)
  | abortError
  | otherError (msg : String)
  deriving DecidableEq

/-- `Response.ok`: status in the range 200–299. -/
def respOk (status : Nat) : Bool := 200 ≤ status && status ≤ 299

/-! ### Response envelopes

One record with optional fields covers every JSON body the three
handlers produce (absent fields are `none`).  Constant sub-objects that
no claim mentions (the commercial `credits` object, the `details` field
suppressed outside development, part_001's `tried` list) are omitted.
The JS `example` field is named `exampleField` (`example` is reserved in
Lean). -/

structure Body where
  success : Option Bool := none
  status : Option String := none
  message : Option String := none
  error : Option String := none
  code : Option String := none
  url : Option String := none
  finalUrl : Option String := none
  statusCode : Option Nat := none
  content : Option String := none
  length : Option Nat := none
  contentType : Option String := none
  exampleField : Option String := none
  resetAt : Option String := none
  upgradeUrl : Option String := none
  originalUrl : Option String := none
  contentLength : Option Nat := none
  timestamp : Option String := none
  deriving DecidableEq

/-- An HTTP response: status, optional JSON body (none for the bare
`OPTIONS` 200), and the rate-limit headers set on the response object. -/
structure Resp where
  status : Nat
  body : Option Body := none
  rlHeaders : List (String × String) := []
  deriving DecidableEq

/-! ### `tryFetch` of the open variants -/

/-- The object `tryFetch` resolves with (src/unnamed/part_000, lines 73–85
and 86–88; src/unnamed/part_001, lines 118–137). -/
structure TryRes where
  success : Bool
  url : String
  statusCode : Option Nat := none
  error : Option String := none
  finalUrl : Option String := none
  content : Option String := none
  length : Option Nat := none
  contentType : Option String := none
  deriving DecidableEq

/-- part_000's text test: `ct.includes('text') || ct.includes('xml') ||
ct.includes('json') || ct === ''`. -/
def isText000 (ct : String) : Bool :=
  strHas ct "text" || strHas ct "xml" || strHas ct "json" || ct == ""

/-- part_001's text test uses `'text/'` instead of `'text'`. -/
def isText001 (ct : String) : Bool :=
  strHas ct "text/" || strHas ct "xml" || strHas ct "json" || ct == ""

/-- `tryFetch` of src/unnamed/part_000 (lines 55–89). -/
def tryFetch000 (oracle : String → FetchEvent) (targetUrl : String) : TryRes :=
  match oracle targetUrl with
  | .abortError => { success := false, error := some "Timeout", url := targetUrl }
  | .otherError m => { success := false, error := some m, url := targetUrl }
  | .ok r =>
    let ct := r.contentType.getD ""
    let content := if isText000 ct then r.body else ""
    if !(respOk r.status) then
      { success := false, statusCode := some r.status,
        error := some ("HTTP " ++ toString r.status), url := targetUrl }
    else
      { success := true, url := targetUrl, finalUrl := some r.finalUrl,
        statusCode := some r.status, content := some content,
        length := some content.length, contentType := some ct }

/-- `tryFetch` of src/unnamed/part_001 (lines 90–145); its failure object
additionally reports `finalUrl` and `contentType`. -/
def tryFetch001 (oracle : String → FetchEvent) (targetUrl : String) : TryRes :=
  match oracle targetUrl with
  | .abortError => { success := false, error := some "Timeout", url := targetUrl }
  | .otherError m => { success := false, error := some m, url := targetUrl }
  | .ok r =>
    let ct := r.contentType.getD ""
    let content := if isText001 ct then r.body else ""
    if !(respOk r.status) then
      { success := false, statusCode := some r.status,
        error := some ("HTTP " ++ toString r.status), url := targetUrl,
        finalUrl := some r.finalUrl, contentType := some ct }
    else
      { success := true, url := targetUrl, finalUrl := some r.finalUrl,
        statusCode := some r.status, content := some content,
        length := some content.length, contentType := some ct }

/-- Rendering a `tryFetch` result as the JSON body the handler returns. -/
def toBody (t : TryRes) : Body :=
  { success := some t.success, url := some t.url, statusCode := t.statusCode,
    error := t.error, finalUrl := t.finalUrl, content := t.content,
    length := t.length, contentType := t.contentType }

/-! ### The open handler (src/unnamed/part_000) -/

/-- Readiness body of lines 14–18. -/
def readyBody000 : Body :=
  { success := some true, status := some "ready",
    message := some "API ready. Use ?url=<URL or domain>&type=html|robots|sitemap|llms" }

/-- Lines 45–49: fetch the final target and shape the response. -/
def finish000 (oracle : String → FetchEvent) (target : String) : Resp :=
  let result := tryFetch000 oracle target
  if result.success then { status := 200, body := some (toBody result) }
  else { status := result.statusCode.getD 500,
         body := some { success := some false, error := result.error } }

/-- Lines 38–42: try each sitemap candidate in order, answering with the
first success; 404 when the list is exhausted. -/
def probe000 (oracle : String → FetchEvent) : List String → Resp
  | [] => { status := 404,
            body := some { success := some false, error := some "Sitemap not found" } }
  | c :: rest =>
    let hit := tryFetch000 oracle c
    if hit.success then { status := 200, body := some (toBody hit) }
    else probe000 oracle rest

/-- The three sitemap candidate URLs (lines 33–37). -/
def sitemapCandidates (protocol hostname : String) : List String :=
  [protocol ++ "//" ++ hostname ++ "/sitemap.xml",
   protocol ++ "//" ++ hostname ++ "/sitemap_index.xml",
   protocol ++ "//" ++ hostname ++ "/sitemap"]

/-- The open-variant handler (src/unnamed/part_000, lines 3–53).  `urlQ`
and `typeQ` are the query parameters (`none` when absent; JS treats the
empty string as missing too).  A `parseURL` failure models the `URL`
constructor throwing into the outer catch (500). -/
def openHandler (oracle : String → FetchEvent) (method : String)
    (urlQ typeQ : Option String) : Resp :=
  if method = "OPTIONS" then { status := 200, body := none } else
  let url := urlQ.getD ""
  let ty := typeQ.getD "html"
  if url = "" then
    { status := 200, body := some readyBody000 }
  else
    let target := normalize url
    if ty = "robots" ∨ ty = "llms" then
      match parseURL target with
      | none => { status := 500,
                  body := some { success := some false, error := some "Invalid URL" } }
      | some pr =>
        finish000 oracle (pr.1 ++ "//" ++ pr.2 ++ "/" ++
          (if ty = "robots" then "robots.txt" else "llms.txt"))
    else if ty = "sitemap" then
      match parseURL target with
      | none => { status := 500,
                  body := some { success := some false, error := some "Invalid URL" } }
      | some pr => probe000 oracle (sitemapCandidates pr.1 pr.2)
    else finish000 oracle target

/-! ### The commercial handler (src/llm-tool/api/analyze.js)

Parameters standing for configuration and platform state:
`validKeys` — the parsed `VALID_API_KEYS` list; `tierOf` — the
`TIER_<key>` environment lookup; `kvOk` / `usageOk` — whether the two
`try`-wrapped KV blocks succeed (a throwing store is caught and
skipped); `now` — current time in ms (ISO rendering abstracted as the
decimal string); `today` — the calendar-date component of the usage key;
`oracle` — the `fetch` platform call. -/

/-- `req.headers['x-api-key'] || req.query.apiKey` (empty strings are
falsy in JS). -/
def pickApiKey (hdrKey qKey : Option String) : String :=
  let h := hdrKey.getD ""
  if h = "" then qKey.getD "" else h

/-- The tier table of lines 58–69 with the `limits[tier] || limits.basic`
fallback for unknown tiers. -/
def tierLimit (t : String) : Nat :=
  if t = "trial" then 10
  else if t = "basic" then 100
  else if t = "pro" then 1000
  else if t = "unlimited" then 999999
  else 100

/-- Error body of line 22–28. -/
def missingKeyBody : Body :=
  { error := some "API key required",
    message := some "Get your API key at https://yourdomain.com/pricing",
    code := some "MISSING_API_KEY" }

/-- Error body of line 34–40. -/
def invalidKeyBody : Body :=
  { error := some "Invalid API key",
    message := some "This API key is not recognized. Contact support if you believe this is an error.",
    code := some "INVALID_API_KEY" }

/-- Error body of lines 106–111. -/
def missingUrlBody : Body :=
  { error := some "URL parameter is required",
    message := some "Please provide a URL to analyze",
    exampleField := some "/api/analyze?url=example.com&apiKey=YOUR_KEY",
    code := some "MISSING_URL" }

/-- Error body of lines 128–132. -/
def blockedBody : Body :=
  { error := some "Invalid URL",
    message := some "Internal or private network addresses are not allowed",
    code := some "BLOCKED_URL" }

/-- Error body of lines 218–223 (the `details` field is suppressed
outside development). -/
def internalErrorBody : Body :=
  { error := some "Analysis failed",
    message := some "Unable to analyze the website. Please try again.",
    code := some "INTERNAL_ERROR" }

/-- Error body of lines 72–78. -/
def rateLimitBody (tier : String) (limit now : Nat) : Body :=
  { error := some "Rate limit exceeded",
    message := some ("You\x27ve exceeded your " ++ tier ++ " plan limit of "
      ++ toString limit ++ " requests per hour."),
    resetAt := some (toString (now + 3600000)),
    upgradeUrl := some "https://yourdomain.com/pricing",
    code := some "RATE_LIMIT_EXCEEDED" }

/-- Security layer 2 (lines 45–86): increment the per-key hourly counter,
set its expiry on the first hit, resolve the tier quota, and either
short-circuit with 429 (`inl`) or hand back the updated store and the
rate-limit headers (`inr`).  `kvOk = false` is the catch branch: continue
without rate limiting. -/
def rateLimitStep (tierOf : String → Option String) (kvOk : Bool) (now : Nat)
    (apiKey : String) (kv : KV) : (Resp × KV) ⊕ (KV × List (String × String)) :=
  if !kvOk then .inr (kv, []) else
  let rateLimitKey := "ratelimit:" ++ apiKey
  let kv1 := kvIncr kv rateLimitKey
  let requestCount := kv1.counters rateLimitKey
  let kv2 := if requestCount = 1 then kvExpire kv1 rateLimitKey 3600 else kv1
  let tier := (tierOf apiKey).getD "basic"
  let limit := tierLimit tier
  if requestCount > limit then
    .inl ({ status := 429, body := some (rateLimitBody tier limit now) }, kv2)
  else
    -- `Math.max(0, limit - requestCount)` is Nat truncated subtraction.
    .inr (kv2, [("X-RateLimit-Limit", toString limit),
                ("X-RateLimit-Remaining", toString (limit - requestCount)),
                ("X-RateLimit-Reset", toString (now + 3600000))])

/-- Security layer 3 (lines 91–99): per-key-per-day usage counter with a
30-day expiry; failures are swallowed (`usageOk = false`). -/
def usageStep (usageOk : Bool) (today apiKey : String) (kv : KV) : KV :=
  if !usageOk then kv else
  let usageKey := "usage:" ++ apiKey ++ ":" ++ today
  kvExpire (kvIncr kv usageKey) usageKey 2592000

/-- Error body of lines 205–209. -/
def timeoutBody : Body :=
  { error := some "Request timeout",
    message := some "The target website took too long to respond",
    code := some "TIMEOUT" }

/-- Error body of lines 175–180 (upstream status passed through). -/
def fetchFailedBody (status : Nat) (statusText resourceUrl : String) : Body :=
  { error := some ("Failed to fetch: " ++ toString status),
    message := some statusText, url := some resourceUrl,
    code := some "FETCH_FAILED" }

/-- Success body of lines 186–199 (the constant `credits` object is
omitted; the ISO timestamp is abstracted as the decimal time). -/
def commercialSuccessBody (resourceUrl origUrl ct content : String) (now : Nat) : Body :=
  { success := some true, url := some resourceUrl, originalUrl := some origUrl,
    contentType := some ct, content := some content,
    contentLength := some content.length, timestamp := some (toString now) }

/-- Lines 161–227: the single outbound fetch, mapped to the response.
`AbortError` (the 15 s timeout fired) becomes 504 `TIMEOUT`; other thrown
errors become 500 `INTERNAL_ERROR`; a non-2xx upstream status is passed
through with `FETCH_FAILED`; the body of a 2xx response is always read as
text. -/
def commercialFetch (oracle : String → FetchEvent) (resourceUrl origUrl : String)
    (now : Nat) (hdrs : List (String × String)) : Resp :=
  match oracle resourceUrl with
  | .abortError => { status := 504, body := some timeoutBody, rlHeaders := hdrs }
  | .otherError _ => { status := 500, body := some internalErrorBody, rlHeaders := hdrs }
  | .ok r =>
    if !(respOk r.status) then
      { status := r.status, body := some (fetchFailedBody r.status r.statusText resourceUrl),
        rlHeaders := hdrs }
    else
      let ct := r.contentType.getD ""
      let content := r.body
      { status := 200, rlHeaders := hdrs,
        body := some (commercialSuccessBody resourceUrl origUrl ct content now) }

/-- Main functionality (lines 103–227): url presence, SSRF block list,
scheme completion, resource-path rewriting by `type`, then the fetch.
A `urlOrigin` failure models `new URL(path, base)` throwing into the
catch (500 `INTERNAL_ERROR`). -/
def commercialMain (oracle : String → FetchEvent) (urlQ typeQ : Option String)
    (now : Nat) (hdrs : List (String × String)) (kv : KV) : Resp × KV :=
  let url := urlQ.getD ""
  if url = "" then
    ({ status := 400, body := some missingUrlBody, rlHeaders := hdrs }, kv)
  else
    let t0 := commercialStrip url
    if blockedTest t0 then
      ({ status := 403, body := some blockedBody, rlHeaders := hdrs }, kv)
    else
      let targetUrl :=
        if !(strStarts t0 "http://") && !(strStarts t0 "https://") then "https://" ++ t0
        else t0
      let ty := typeQ.getD "html"
      let resourceUrl :=
        if ty = "robots" then (urlOrigin targetUrl).map (· ++ "/robots.txt")
        else if ty = "sitemap" then (urlOrigin targetUrl).map (· ++ "/sitemap.xml")
        else if ty = "llms" then (urlOrigin targetUrl).map (· ++ "/llms.txt")
        else some targetUrl
      match resourceUrl with
      | none => ({ status := 500, body := some internalErrorBody, rlHeaders := hdrs }, kv)
      | some ru => (commercialFetch oracle ru url now hdrs, kv)

/-- The commercial handler (src/llm-tool/api/analyze.js, lines 6–228):
CORS/OPTIONS preflight, API-key presence and validity, rate limiting,
usage metering, then the main functionality.  Returns the response
together with the final key-value store state. -/
def commercialHandler (validKeys : List String) (tierOf : String → Option String)
    (kvOk usageOk : Bool) (now : Nat) (today : String)
    (oracle : String → FetchEvent) (method : String)
    (hdrKey qKey urlQ typeQ : Option String) (kv : KV) : Resp × KV :=
  if method = "OPTIONS" then ({ status := 200, body := none }, kv) else
  let apiKey := pickApiKey hdrKey qKey
  if apiKey = "" then ({ status := 401, body := some missingKeyBody }, kv)
  else if !(validKeys.contains apiKey) then
    ({ status := 401, body := some invalidKeyBody }, kv)
  else
    match rateLimitStep tierOf kvOk now apiKey kv with
    | .inl out => out
    | .inr st => commercialMain oracle urlQ typeQ now st.2 (usageStep usageOk today apiKey st.1)

/-- The rate-limit headers produced for an admitted request. -/
def rlHeadersOf (tierOf : String → Option String) (apiKey : String) (now : Nat)
    (kv : KV) : List (String × String) :=
  [("X-RateLimit-Limit", toString (tierLimit ((tierOf apiKey).getD "basic"))),
   ("X-RateLimit-Remaining", toString (tierLimit ((tierOf apiKey).getD "basic")
     - (kv.counters ("ratelimit:" ++ apiKey) + 1))),
   ("X-RateLimit-Reset", toString (now + 3600000))]

/-- The store state after the admission layers (rate-limit increment plus
usage metering) of an admitted request. -/
def postAdmissionKV (usageOk : Bool) (today apiKey : String) (kv : KV) : KV :=
  usageStep usageOk today apiKey
    (if kv.counters ("ratelimit:" ++ apiKey) + 1 = 1 then
      kvExpire (kvIncr kv ("ratelimit:" ++ apiKey)) ("ratelimit:" ++ apiKey) 3600
    else kvIncr kv ("ratelimit:" ++ apiKey))

/-- Shape of the commercial error envelopes: `error`, `code` and
`message` present, no `success` field. -/
def errorShape (b : Body) : Bool :=
  b.error.isSome && b.code.isSome && b.message.isSome && b.success.isNone

/-! ### Helper lemmas about the store and the handler stages -/

theorem kvIncr_counters_self (kv : KV) (k : String) :
    (kvIncr kv k).counters k = kv.counters k + 1 := by
  simp [kvIncr]

theorem kvIncr_counters_ne (kv : KV) (k x : String) (h : x ≠ k) :
    (kvIncr kv k).counters x = kv.counters x := by
  simp [kvIncr, h]

theorem kvIncr_expiries (kv : KV) (k : String) :
    (kvIncr kv k).expiries = kv.expiries := rfl

theorem kvExpire_counters (kv : KV) (k : String) (s : Nat) :
    (kvExpire kv k s).counters = kv.counters := rfl

theorem kvExpire_expiries_self (kv : KV) (k : String) (s : Nat) :
    (kvExpire kv k s).expiries k = some s := by
  simp [kvExpire]

theorem kvExpire_expiries_ne (kv : KV) (k : String) (s : Nat) (x : String) (h : x ≠ k) :
    (kvExpire kv k s).expiries x = kv.expiries x := by
  simp [kvExpire, h]

/-- The hourly rate-limit key and the daily usage key never collide. -/
theorem ratelimit_key_ne_usage_key (k k' d : String) :
    "ratelimit:" ++ k ≠ "usage:" ++ k' ++ ":" ++ d := by
  intro h
  have h2 := congrArg String.data h
  simp [String.data_append] at h2

theorem usageStep_counters_rl (usageOk : Bool) (today apiKey k : String) (kv : KV) :
    (usageStep usageOk today apiKey kv).counters ("ratelimit:" ++ k) =
      kv.counters ("ratelimit:" ++ k) := by
  unfold usageStep
  split
  · rfl
  · rw [kvExpire_counters,
      kvIncr_counters_ne _ _ _ (ratelimit_key_ne_usage_key k apiKey today)]

theorem usageStep_expiries_rl (usageOk : Bool) (today apiKey k : String) (kv : KV) :
    (usageStep usageOk today apiKey kv).expiries ("ratelimit:" ++ k) =
      kv.expiries ("ratelimit:" ++ k) := by
  unfold usageStep
  split
  · rfl
  · rw [kvExpire_expiries_ne _ _ _ _ (ratelimit_key_ne_usage_key k apiKey today),
      kvIncr_expiries]

theorem commercialFetch_rlHeaders (oracle : String → FetchEvent)
    (ru u : String) (now : Nat) (hdrs : List (String × String)) :
    (commercialFetch oracle ru u now hdrs).rlHeaders = hdrs := by
  unfold commercialFetch
  cases oracle ru with
  | ok r => dsimp only; split <;> rfl
  | abortError => rfl
  | otherError m => rfl

theorem commercialMain_kv (oracle : String → FetchEvent) (urlQ typeQ : Option String)
    (now : Nat) (hdrs : List (String × String)) (kv : KV) :
    (commercialMain oracle urlQ typeQ now hdrs kv).2 = kv := by
  unfold commercialMain
  dsimp only
  split
  · rfl
  · split
    · rfl
    · split <;> rfl

theorem commercialMain_rlHeaders (oracle : String → FetchEvent) (urlQ typeQ : Option String)
    (now : Nat) (hdrs : List (String × String)) (kv : KV) :
    (commercialMain oracle urlQ typeQ now hdrs kv).1.rlHeaders = hdrs := by
  unfold commercialMain
  dsimp only
  split
  · rfl
  · split
    · rfl
    · split
      · rfl
      · exact commercialFetch_rlHeaders ..

/-- A request with a valid key and remaining quota passes the admission
layers and reaches the main functionality with the rate-limit headers
set and the counters updated. -/
theorem commercialHandler_admits
    (validKeys : List String) (tierOf : String → Option String) (usageOk : Bool)
    (now : Nat) (today : String) (oracle : String → FetchEvent) (method : String)
    (hdrKey qKey urlQ typeQ : Option String) (kv : KV) (apiKey : String)
    (hm : method ≠ "OPTIONS")
    (hpick : pickApiKey hdrKey qKey = apiKey)
    (hne : apiKey ≠ "")
    (hvalid : validKeys.contains apiKey = true)
    (hlim : kv.counters ("ratelimit:" ++ apiKey) + 1 ≤ tierLimit ((tierOf apiKey).getD "basic")) :
    commercialHandler validKeys tierOf true usageOk now today oracle method
        hdrKey qKey urlQ typeQ kv =
      commercialMain oracle urlQ typeQ now (rlHeadersOf tierOf apiKey now kv)
        (postAdmissionKV usageOk today apiKey kv) := by
  unfold commercialHandler
  rw [if_neg hm, hpick, if_neg hne, hvalid]
  simp only [Bool.not_true, Bool.false_eq_true, if_false]
  unfold rateLimitStep
  simp only [Bool.not_true, Bool.false_eq_true, if_false]
  rw [kvIncr_counters_self,
    if_neg (by omega :
      ¬ kv.counters ("ratelimit:" ++ apiKey) + 1 > tierLimit ((tierOf apiKey).getD "basic"))]
  rfl

/-- The admission layers change the hourly rate counter of the key by
exactly one and leave its expiry at 3600 when this was the first hit. -/
theorem postAdmissionKV_counters (usageOk : Bool) (today apiKey : String) (kv : KV) :
    (postAdmissionKV usageOk today apiKey kv).counters ("ratelimit:" ++ apiKey) =
      kv.counters ("ratelimit:" ++ apiKey) + 1 := by
  unfold postAdmissionKV
  rw [usageStep_counters_rl]
  split <;> simp [kvExpire, kvIncr]

/-! ### Claim theorems -/

/-- **C1.**  For every request carrying a valid API key (commercial
variant, key-value store available): the per-key hourly rate counter is
incremented exactly once; if the incremented value is 1 the counter's
expiry is set to 3600 seconds; the key's tier (default `basic` when no
tier is configured) is mapped to a quota by the table
`{trial: 10, basic: 100, pro: 1000, unlimited: 999999}`; if the
post-increment count is strictly greater than the quota the handler
responds HTTP 429 with code `RATE_LIMIT_EXCEEDED` and a reset time, and
otherwise attaches `X-RateLimit-Limit`, `X-RateLimit-Remaining`
(= max(0, quota − count), here Nat truncated subtraction) and
`X-RateLimit-Reset` headers to the response. -/
theorem commercial_rate_limit_behaviour
    (validKeys : List String) (tierOf : String → Option String) (usageOk : Bool)
    (now : Nat) (today : String) (oracle : String → FetchEvent) (method : String)
    (hdrKey qKey urlQ typeQ : Option String) (kv : KV) (apiKey : String)
    (hm : method ≠ "OPTIONS")
    (hpick : pickApiKey hdrKey qKey = apiKey)
    (hne : apiKey ≠ "")
    (hvalid : validKeys.contains apiKey = true) :
    (commercialHandler validKeys tierOf true usageOk now today oracle method
        hdrKey qKey urlQ typeQ kv).2.counters ("ratelimit:" ++ apiKey) =
      kv.counters ("ratelimit:" ++ apiKey) + 1 ∧
    (kv.counters ("ratelimit:" ++ apiKey) + 1 = 1 →
      (commercialHandler validKeys tierOf true usageOk now today oracle method
        hdrKey qKey urlQ typeQ kv).2.expiries ("ratelimit:" ++ apiKey) = some 3600) ∧
    (tierLimit "trial" = 10 ∧ tierLimit "basic" = 100 ∧ tierLimit "pro" = 1000 ∧
      tierLimit "unlimited" = 999999 ∧
      (tierOf apiKey = none →
        tierLimit ((tierOf apiKey).getD "basic") = tierLimit "basic")) ∧
    (kv.counters ("ratelimit:" ++ apiKey) + 1 > tierLimit ((tierOf apiKey).getD "basic") →
      (commercialHandler validKeys tierOf true usageOk now today oracle method
          hdrKey qKey urlQ typeQ kv).1.status = 429 ∧
      ((commercialHandler validKeys tierOf true usageOk now today oracle method
          hdrKey qKey urlQ typeQ kv).1.body.map Body.code) = some (some "RATE_LIMIT_EXCEEDED") ∧
      ((commercialHandler validKeys tierOf true usageOk now today oracle method
          hdrKey qKey urlQ typeQ kv).1.body.map Body.resetAt) =
        some (some (toString (now + 3600000)))) ∧
    (kv.counters ("ratelimit:" ++ apiKey) + 1 ≤ tierLimit ((tierOf apiKey).getD "basic") →
      (commercialHandler validKeys tierOf true usageOk now today oracle method
          hdrKey qKey urlQ typeQ kv).1.rlHeaders =
        [("X-RateLimit-Limit", toString (tierLimit ((tierOf apiKey).getD "basic"))),
         ("X-RateLimit-Remaining",
           toString (tierLimit ((tierOf apiKey).getD "basic")
             - (kv.counters ("ratelimit:" ++ apiKey) + 1))),
         ("X-RateLimit-Reset", toString (now + 3600000))]) := by
  unfold commercialHandler
  rw [if_neg hm, hpick, if_neg hne, hvalid]
  simp only [Bool.not_true, Bool.false_eq_true, if_false]
  unfold rateLimitStep
  simp only [Bool.not_true, Bool.false_eq_true, if_false]
  rw [kvIncr_counters_self]
  by_cases hgt : kv.counters ("ratelimit:" ++ apiKey) + 1 > tierLimit ((tierOf apiKey).getD "basic")
  · rw [if_pos hgt]
    dsimp only
    refine ⟨?_, ?_, ?_, ?_, ?_⟩
    · split <;> simp [kvExpire, kvIncr]
    · intro h1
      rw [if_pos h1]
      exact kvExpire_expiries_self ..
    · exact ⟨rfl, rfl, rfl, rfl, fun h => by rw [h]; rfl⟩
    · intro _; exact ⟨rfl, rfl, rfl⟩
    · intro hle; omega
  · rw [if_neg hgt]
    dsimp only
    refine ⟨?_, ?_, ?_, ?_, ?_⟩
    · rw [commercialMain_kv, usageStep_counters_rl]
      split <;> simp [kvExpire, kvIncr]
    · intro h1
      rw [commercialMain_kv, usageStep_expiries_rl, if_pos h1]
      exact kvExpire_expiries_self ..
    · exact ⟨rfl, rfl, rfl, rfl, fun h => by rw [h]; rfl⟩
    · intro hcontra; omega
    · intro _
      rw [commercialMain_rlHeaders]

theorem commercial_rate_limit_behaviour_witness :
    (commercialHandler ["k1"] (fun _ => none) true true 0 "2026-10-11"
        (fun _ => FetchEvent.abortError) "GET" (some "k1") none none none kv0).2.counters
        "ratelimit:k1" = 1 ∧
    (commercialHandler ["k1"] (fun _ => none) true true 0 "2026-10-11"
        (fun _ => FetchEvent.abortError) "GET" (some "k1") none none none kv0).2.expiries
        "ratelimit:k1" = some 3600 ∧
    (commercialHandler ["k1"] (fun _ => none) true true 0 "2026-10-11"
        (fun _ => FetchEvent.abortError) "GET" (some "k1") none none none kv0).1.rlHeaders =
      [("X-RateLimit-Limit", "100"), ("X-RateLimit-Remaining", "99"),
       ("X-RateLimit-Reset", "3600000")] := by
  have h := commercial_rate_limit_behaviour ["k1"] (fun _ => none) true 0 "2026-10-11"
    (fun _ => FetchEvent.abortError) "GET" (some "k1") none none none kv0 "k1"
    (by decide) rfl (by decide) (by decide)
  obtain ⟨h1, h2, _, _, h5⟩ := h
  exact ⟨h1, h2 rfl, h5 (by decide)⟩

/-- **C9.**  In the commercial variant, for every request carrying a valid
API key (store available, quota not yet exhausted), the per-key hourly
rate counter is incremented — consuming one unit of quota — even when the
request is subsequently rejected with HTTP 400 `MISSING_URL` (no `url`
parameter) or HTTP 403 `BLOCKED_URL` (e.g. `url=127.0.0.1`): the
increment precedes the url-presence and SSRF checks. -/
theorem commercial_increments_on_rejected_requests
    (validKeys : List String) (tierOf : String → Option String) (usageOk : Bool)
    (now : Nat) (today : String) (oracle : String → FetchEvent) (method : String)
    (hdrKey qKey typeQ : Option String) (kv : KV) (apiKey : String)
    (hm : method ≠ "OPTIONS")
    (hpick : pickApiKey hdrKey qKey = apiKey)
    (hne : apiKey ≠ "")
    (hvalid : validKeys.contains apiKey = true)
    (hlim : kv.counters ("ratelimit:" ++ apiKey) + 1 ≤ tierLimit ((tierOf apiKey).getD "basic")) :
    ((commercialHandler validKeys tierOf true usageOk now today oracle method
        hdrKey qKey none typeQ kv).1.status = 400 ∧
     ((commercialHandler validKeys tierOf true usageOk now today oracle method
        hdrKey qKey none typeQ kv).1.body.map Body.code) = some (some "MISSING_URL") ∧
     (commercialHandler validKeys tierOf true usageOk now today oracle method
        hdrKey qKey none typeQ kv).2.counters ("ratelimit:" ++ apiKey) =
       kv.counters ("ratelimit:" ++ apiKey) + 1) ∧
    ((commercialHandler validKeys tierOf true usageOk now today oracle method
        hdrKey qKey (some "127.0.0.1") typeQ kv).1.status = 403 ∧
     ((commercialHandler validKeys tierOf true usageOk now today oracle method
        hdrKey qKey (some "127.0.0.1") typeQ kv).1.body.map Body.code) =
       some (some "BLOCKED_URL") ∧
     (commercialHandler validKeys tierOf true usageOk now today oracle method
        hdrKey qKey (some "127.0.0.1") typeQ kv).2.counters ("ratelimit:" ++ apiKey) =
       kv.counters ("ratelimit:" ++ apiKey) + 1) := by
  rw [commercialHandler_admits validKeys tierOf usageOk now today oracle method
      hdrKey qKey none typeQ kv apiKey hm hpick hne hvalid hlim,
    commercialHandler_admits validKeys tierOf usageOk now today oracle method
      hdrKey qKey (some "127.0.0.1") typeQ kv apiKey hm hpick hne hvalid hlim]
  constructor
  · refine ⟨rfl, rfl, ?_⟩
    rw [commercialMain_kv]
    exact postAdmissionKV_counters ..
  · unfold commercialMain
    rw [if_neg (by decide : ¬ (some "127.0.0.1" : Option String).getD "" = "")]
    rw [if_pos (by decide :
      blockedTest (commercialStrip ((some "127.0.0.1" : Option String).getD "")) = true)]
    exact ⟨rfl, rfl, postAdmissionKV_counters ..⟩

theorem commercial_increments_on_rejected_requests_witness :
    ((commercialHandler ["k1"] (fun _ => none) true true 0 "2026-10-11"
        (fun _ => FetchEvent.abortError) "GET" (some "k1") none none none kv0).1.status = 400 ∧
     ((commercialHandler ["k1"] (fun _ => none) true true 0 "2026-10-11"
        (fun _ => FetchEvent.abortError) "GET" (some "k1") none none none kv0).1.body.map Body.code)
        = some (some "MISSING_URL") ∧
     (commercialHandler ["k1"] (fun _ => none) true true 0 "2026-10-11"
        (fun _ => FetchEvent.abortError) "GET" (some "k1") none none none kv0).2.counters
        "ratelimit:k1" = 1) ∧
    ((commercialHandler ["k1"] (fun _ => none) true true 0 "2026-10-11"
        (fun _ => FetchEvent.abortError) "GET" (some "k1") none (some "127.0.0.1") none kv0).1.status = 403 ∧
     ((commercialHandler ["k1"] (fun _ => none) true true 0 "2026-10-11"
        (fun _ => FetchEvent.abortError) "GET" (some "k1") none (some "127.0.0.1") none kv0).1.body.map Body.code)
        = some (some "BLOCKED_URL") ∧
     (commercialHandler ["k1"] (fun _ => none) true true 0 "2026-10-11"
        (fun _ => FetchEvent.abortError) "GET" (some "k1") none (some "127.0.0.1") none kv0).2.counters
        "ratelimit:k1" = 1) :=
  commercial_increments_on_rejected_requests ["k1"] (fun _ => none) true 0 "2026-10-11"
    (fun _ => FetchEvent.abortError) "GET" (some "k1") none none kv0 "k1"
    (by decide) rfl (by decide) (by decide) (by decide)

theorem commercialFetch_code_ne_blocked (oracle : String → FetchEvent)
    (ru u : String) (now : Nat) (hdrs : List (String × String)) :
    (commercialFetch oracle ru u now hdrs).body.map Body.code ≠
      some (some "BLOCKED_URL") := by
  unfold commercialFetch
  cases oracle ru with
  | ok r =>
    dsimp only
    split
    · simp [fetchFailedBody]
    · simp [commercialSuccessBody]
  | abortError => simp [timeoutBody]
  | otherError m => simp [internalErrorBody]

theorem commercialMain_code_ne_blocked (oracle : String → FetchEvent)
    (urlQ typeQ : Option String) (now : Nat) (hdrs : List (String × String)) (kv : KV)
    (hnb : blockedTest (commercialStrip (urlQ.getD "")) = false) :
    (commercialMain oracle urlQ typeQ now hdrs kv).1.body.map Body.code ≠
      some (some "BLOCKED_URL") := by
  unfold commercialMain
  dsimp only
  split
  · simp [missingUrlBody]
  · rw [if_neg (by simp [hnb])]
    split
    · simp [internalErrorBody]
    · dsimp only
      exact commercialFetch_code_ne_blocked oracle _ _ now hdrs

/-- A valid-key request whose cleaned url string trips the block list is
answered with the 403 `BLOCKED_URL` response, independently of the fetch
oracle. -/
theorem commercialHandler_blocked_eq
    (validKeys : List String) (tierOf : String → Option String) (usageOk : Bool)
    (now : Nat) (today : String) (oracle : String → FetchEvent) (method : String)
    (hdrKey qKey typeQ : Option String) (kv : KV) (apiKey : String)
    (hm : method ≠ "OPTIONS")
    (hpick : pickApiKey hdrKey qKey = apiKey)
    (hne : apiKey ≠ "")
    (hvalid : validKeys.contains apiKey = true)
    (hlim : kv.counters ("ratelimit:" ++ apiKey) + 1 ≤ tierLimit ((tierOf apiKey).getD "basic"))
    (s : String) (hb : blockedTest (commercialStrip s) = true) :
    commercialHandler validKeys tierOf true usageOk now today oracle method
        hdrKey qKey (some s) typeQ kv =
      ({ status := 403, body := some blockedBody,
         rlHeaders := rlHeadersOf tierOf apiKey now kv },
       postAdmissionKV usageOk today apiKey kv) := by
  have hs : ¬ s = "" := by
    intro he
    rw [he] at hb
    exact absurd hb (by decide)
  rw [commercialHandler_admits validKeys tierOf usageOk now today oracle method
    hdrKey qKey (some s) typeQ kv apiKey hm hpick hne hvalid hlim]
  unfold commercialMain
  simp only [Option.getD]
  rw [if_neg hs, if_pos hb]

/-- **C10.**  In the commercial variant, the SSRF block patterns are
matched against the start of the scheme-stripped input string rather than
a parsed hostname: every input whose stripped string begins with
`localhost` (case-insensitively), `127.`, `10.`, `192.168.`,
`172.16.`–`172.31.` or `0.0.0.0` is rejected, even when its actual
hostname is public (e.g. `127.0.0.1.example.com`), and the input
`user@127.0.0.1`, whose fetched hostname is the private `127.0.0.1`, is
not rejected. -/
theorem commercial_ssrf_is_string_based
    (validKeys : List String) (tierOf : String → Option String) (usageOk : Bool)
    (now : Nat) (today : String) (oracle : String → FetchEvent) (method : String)
    (hdrKey qKey typeQ : Option String) (kv : KV) (apiKey : String)
    (hm : method ≠ "OPTIONS")
    (hpick : pickApiKey hdrKey qKey = apiKey)
    (hne : apiKey ≠ "")
    (hvalid : validKeys.contains apiKey = true)
    (hlim : kv.counters ("ratelimit:" ++ apiKey) + 1 ≤ tierLimit ((tierOf apiKey).getD "basic")) :
    (∀ s : String,
      (lcStarts (commercialStrip s) "localhost" = true ∨
       strStarts (commercialStrip s) "127." = true ∨
       strStarts (commercialStrip s) "10." = true ∨
       strStarts (commercialStrip s) "192.168." = true ∨
       blocked172 (commercialStrip s).data = true ∨
       strStarts (commercialStrip s) "0.0.0.0" = true) →
      (commercialHandler validKeys tierOf true usageOk now today oracle method
          hdrKey qKey (some s) typeQ kv).1.status = 403 ∧
      ((commercialHandler validKeys tierOf true usageOk now today oracle method
          hdrKey qKey (some s) typeQ kv).1.body.map Body.code) = some (some "BLOCKED_URL")) ∧
    (specPrivateHost (urlHostname (commercialTarget "127.0.0.1.example.com")) = false ∧
      (commercialHandler validKeys tierOf true usageOk now today oracle method
          hdrKey qKey (some "127.0.0.1.example.com") typeQ kv).1.status = 403) ∧
    (specPrivateHost (urlHostname (commercialTarget "user@127.0.0.1")) = true ∧
      ((commercialHandler validKeys tierOf true usageOk now today oracle method
          hdrKey qKey (some "user@127.0.0.1") typeQ kv).1.body.map Body.code) ≠
        some (some "BLOCKED_URL")) := by
  have hblock : ∀ s : String, blockedTest (commercialStrip s) = true →
      (commercialHandler validKeys tierOf true usageOk now today oracle method
          hdrKey qKey (some s) typeQ kv).1.status = 403 ∧
      ((commercialHandler validKeys tierOf true usageOk now today oracle method
          hdrKey qKey (some s) typeQ kv).1.body.map Body.code) = some (some "BLOCKED_URL") := by
    intro s hb
    rw [commercialHandler_blocked_eq validKeys tierOf usageOk now today oracle method
      hdrKey qKey typeQ kv apiKey hm hpick hne hvalid hlim s hb]
    exact ⟨rfl, rfl⟩
  refine ⟨?_, ⟨by decide, ?_⟩, by decide, ?_⟩
  · intro s hcond
    refine hblock s ?_
    unfold blockedTest
    rcases hcond with h | h | h | h | h | h <;> simp [h]
  · exact (hblock "127.0.0.1.example.com" (by decide)).1
  · rw [commercialHandler_admits validKeys tierOf usageOk now today oracle method
      hdrKey qKey (some "user@127.0.0.1") typeQ kv apiKey hm hpick hne hvalid hlim]
    exact commercialMain_code_ne_blocked oracle (some "user@127.0.0.1") typeQ now
      (rlHeadersOf tierOf apiKey now kv) (postAdmissionKV usageOk today apiKey kv) (by decide)

theorem commercial_ssrf_is_string_based_witness :
    ((commercialHandler ["k1"] (fun _ => none) true true 0 "2026-10-11"
        (fun _ => FetchEvent.abortError) "GET" (some "k1") none (some "192.168.1.7") none kv0).1.status = 403 ∧
     ((commercialHandler ["k1"] (fun _ => none) true true 0 "2026-10-11"
        (fun _ => FetchEvent.abortError) "GET" (some "k1") none (some "192.168.1.7") none kv0).1.body.map Body.code)
        = some (some "BLOCKED_URL")) ∧
    (specPrivateHost (urlHostname (commercialTarget "127.0.0.1.example.com")) = false ∧
     (commercialHandler ["k1"] (fun _ => none) true true 0 "2026-10-11"
        (fun _ => FetchEvent.abortError) "GET" (some "k1") none (some "127.0.0.1.example.com") none kv0).1.status = 403) ∧
    (specPrivateHost (urlHostname (commercialTarget "user@127.0.0.1")) = true ∧
     ((commercialHandler ["k1"] (fun _ => none) true true 0 "2026-10-11"
        (fun _ => FetchEvent.abortError) "GET" (some "k1") none (some "user@127.0.0.1") none kv0).1.body.map Body.code)
        ≠ some (some "BLOCKED_URL")) := by
  have h := commercial_ssrf_is_string_based ["k1"] (fun _ => none) true 0 "2026-10-11"
    (fun _ => FetchEvent.abortError) "GET" (some "k1") none none kv0 "k1"
    (by decide) rfl (by decide) (by decide) (by decide)
  exact ⟨h.1 "192.168.1.7" (Or.inr (Or.inr (Or.inr (Or.inl (by decide))))), h.2.1, h.2.2⟩

/-- For a default-type (`html`) request that passes the url-presence and
block checks, the main functionality is exactly one fetch of the cleaned
target. -/
theorem commercialMain_html (oracle : String → FetchEvent) (u : String)
    (now : Nat) (hdrs : List (String × String)) (kv : KV)
    (hu : ¬ u = "") (hnb : blockedTest (commercialStrip u) = false) :
    commercialMain oracle (some u) none now hdrs kv =
      (commercialFetch oracle (commercialTarget u) u now hdrs, kv) := by
  unfold commercialMain commercialTarget
  simp only [Option.getD]
  rw [if_neg hu, if_neg (by simp [hnb])]
  rw [if_neg (by decide : ¬ ("html" : String) = "robots"),
    if_neg (by decide : ¬ ("html" : String) = "sitemap"),
    if_neg (by decide : ¬ ("html" : String) = "llms")]

/-- **C4 (counterexample).**  The input `user@127.0.0.1` has hostname
`127.0.0.1` — inside `127.0.0.0/8` — once the handler completes it to
`https://user@127.0.0.1`, yet the commercial handler does not reject it
with 403 `BLOCKED_URL`: with a fetch that throws (as Node fetch does on
credentialled URLs) the request ends as 500 `INTERNAL_ERROR`, and the
block check (which runs before any network call) passes it. -/
theorem commercial_ssrf_hostname_counterexample :
    specPrivateHost (urlHostname (commercialTarget "user@127.0.0.1")) = true ∧
    blockedTest (commercialStrip "user@127.0.0.1") = false ∧
    (commercialHandler ["k1"] (fun _ => none) true true 0 "2026-10-11"
        (fun _ => FetchEvent.otherError "fetch failed") "GET" (some "k1") none
        (some "user@127.0.0.1") none kv0).1.status = 500 ∧
    ((commercialHandler ["k1"] (fun _ => none) true true 0 "2026-10-11"
        (fun _ => FetchEvent.otherError "fetch failed") "GET" (some "k1") none
        (some "user@127.0.0.1") none kv0).1.body.map Body.code) =
      some (some "INTERNAL_ERROR") := by
  refine ⟨by decide, by decide, ?_, ?_⟩ <;> decide

/-- **C4 (amended).**  The commercial SSRF guard matches its patterns
against the cleaned input string: the inputs `127.0.0.1`, `10.1.2.3`,
`192.168.1.1`, `172.16.0.5` and `localhost` are rejected with HTTP 403
`BLOCKED_URL` before any network call (the response does not depend on
the fetch oracle), and `example.com` is accepted (the fetch runs and a
2xx upstream response yields HTTP 200).  The original universal over all
URLs with a private *hostname* fails (see the counterexample). -/
theorem commercial_ssrf_guard_amended
    (validKeys : List String) (tierOf : String → Option String) (usageOk : Bool)
    (now : Nat) (today : String) (oracle : String → FetchEvent) (method : String)
    (hdrKey qKey typeQ : Option String) (kv : KV) (apiKey : String) (r : FetchResp)
    (hm : method ≠ "OPTIONS")
    (hpick : pickApiKey hdrKey qKey = apiKey)
    (hne : apiKey ≠ "")
    (hvalid : validKeys.contains apiKey = true)
    (hlim : kv.counters ("ratelimit:" ++ apiKey) + 1 ≤ tierLimit ((tierOf apiKey).getD "basic"))
    (horacle : oracle "https://example.com" = FetchEvent.ok r)
    (hok : respOk r.status = true) :
    (∀ u : String,
      (u = "127.0.0.1" ∨ u = "10.1.2.3" ∨ u = "192.168.1.1" ∨
       u = "172.16.0.5" ∨ u = "localhost") →
      commercialHandler validKeys tierOf true usageOk now today oracle method
          hdrKey qKey (some u) typeQ kv =
        ({ status := 403, body := some blockedBody,
           rlHeaders := rlHeadersOf tierOf apiKey now kv },
         postAdmissionKV usageOk today apiKey kv)) ∧
    ((commercialHandler validKeys tierOf true usageOk now today oracle method
        hdrKey qKey (some "example.com") none kv).1.status = 200 ∧
     ((commercialHandler validKeys tierOf true usageOk now today oracle method
        hdrKey qKey (some "example.com") none kv).1.body.map Body.success) =
       some (some true)) := by
  constructor
  · intro u hu
    rcases hu with h | h | h | h | h <;> subst h <;>
      exact commercialHandler_blocked_eq validKeys tierOf usageOk now today oracle method
        hdrKey qKey typeQ kv apiKey hm hpick hne hvalid hlim _ (by decide)
  · rw [commercialHandler_admits validKeys tierOf usageOk now today oracle method
      hdrKey qKey (some "example.com") none kv apiKey hm hpick hne hvalid hlim,
      commercialMain_html oracle "example.com" now (rlHeadersOf tierOf apiKey now kv)
        (postAdmissionKV usageOk today apiKey kv) (by decide) (by decide)]
    dsimp only
    rw [show commercialTarget "example.com" = "https://example.com" from rfl]
    unfold commercialFetch
    rw [horacle]
    dsimp only
    rw [if_neg (by simp [hok])]
    exact ⟨rfl, rfl⟩

theorem commercial_ssrf_guard_amended_witness :
    ((commercialHandler ["k1"] (fun _ => none) true true 0 "2026-10-11"
        (fun _ => FetchEvent.ok ⟨200, "OK", some "text/html", "x", "https://example.com/"⟩)
        "GET" (some "k1") none (some "127.0.0.1") none kv0).1.status = 403) ∧
    ((commercialHandler ["k1"] (fun _ => none) true true 0 "2026-10-11"
        (fun _ => FetchEvent.ok ⟨200, "OK", some "text/html", "x", "https://example.com/"⟩)
        "GET" (some "k1") none (some "example.com") none kv0).1.status = 200 ∧
     ((commercialHandler ["k1"] (fun _ => none) true true 0 "2026-10-11"
        (fun _ => FetchEvent.ok ⟨200, "OK", some "text/html", "x", "https://example.com/"⟩)
        "GET" (some "k1") none (some "example.com") none kv0).1.body.map Body.success) =
       some (some true)) := by
  have h := commercial_ssrf_guard_amended ["k1"] (fun _ => none) true 0 "2026-10-11"
    (fun _ => FetchEvent.ok ⟨200, "OK", some "text/html", "x", "https://example.com/"⟩)
    "GET" (some "k1") none none kv0 "k1"
    ⟨200, "OK", some "text/html", "x", "https://example.com/"⟩
    (by decide) rfl (by decide) (by decide) (by decide) rfl (by decide)
  exact ⟨by rw [h.1 "127.0.0.1" (Or.inl rfl)], h.2.1, h.2.2⟩

/-- **C2 (counterexample).**  A commercial sitemap request for
`example.com` against a host where `/sitemap.xml` answers 404 but
`/sitemap_index.xml` answers 200: the handler answers 404 `FETCH_FAILED`
for `/sitemap.xml` and never reports the succeeding second candidate, so
the ordered-candidate-probing claim fails on the commercial handler. -/
theorem sitemap_probing_counterexample :
    (commercialHandler ["k1"] (fun _ => none) true true 0 "2026-10-11"
        (fun v => if v = "https://example.com/sitemap_index.xml" then
            FetchEvent.ok ⟨200, "OK", some "application/xml", "<sitemapindex/>",
              "https://example.com/sitemap_index.xml"⟩
          else FetchEvent.ok ⟨404, "Not Found", some "text/html", "", v⟩)
        "GET" (some "k1") none (some "example.com") (some "sitemap") kv0).1.status = 404 ∧
    ((commercialHandler ["k1"] (fun _ => none) true true 0 "2026-10-11"
        (fun v => if v = "https://example.com/sitemap_index.xml" then
            FetchEvent.ok ⟨200, "OK", some "application/xml", "<sitemapindex/>",
              "https://example.com/sitemap_index.xml"⟩
          else FetchEvent.ok ⟨404, "Not Found", some "text/html", "", v⟩)
        "GET" (some "k1") none (some "example.com") (some "sitemap") kv0).1.body.map Body.code) =
      some (some "FETCH_FAILED") ∧
    ((commercialHandler ["k1"] (fun _ => none) true true 0 "2026-10-11"
        (fun v => if v = "https://example.com/sitemap_index.xml" then
            FetchEvent.ok ⟨200, "OK", some "application/xml", "<sitemapindex/>",
              "https://example.com/sitemap_index.xml"⟩
          else FetchEvent.ok ⟨404, "Not Found", some "text/html", "", v⟩)
        "GET" (some "k1") none (some "example.com") (some "sitemap") kv0).1.body.map Body.url) =
      some (some "https://example.com/sitemap.xml") ∧
    (tryFetch000
        (fun v => if v = "https://example.com/sitemap_index.xml" then
            FetchEvent.ok ⟨200, "OK", some "application/xml", "<sitemapindex/>",
              "https://example.com/sitemap_index.xml"⟩
          else FetchEvent.ok ⟨404, "Not Found", some "text/html", "", v⟩)
        "https://example.com/sitemap_index.xml").success = true := by
  refine ⟨?_, ?_, ?_, ?_⟩ <;> decide

/-- **C2 (amended).**  Ordered sitemap candidate probing is a property of
the open handler (src/unnamed/part_000): it answers with the outcome of
the first candidate of `/sitemap.xml`, `/sitemap_index.xml`, `/sitemap`
whose fetch succeeds — reporting that candidate's URL — and 404 only
after all three fail.  The commercial handler instead performs exactly
one fetch, of `/sitemap.xml`. -/
theorem sitemap_candidate_probing_amended
    (oracle : String → FetchEvent) (method u : String) (pr : String × String)
    (validKeys : List String) (tierOf : String → Option String) (usageOk : Bool)
    (now : Nat) (today : String) (method2 : String) (hdrKey qKey : Option String)
    (kv : KV) (apiKey u2 o2 : String)
    (hm : method ≠ "OPTIONS") (hu : ¬ u = "")
    (hp : parseURL (normalize u) = some pr)
    (hm2 : method2 ≠ "OPTIONS")
    (hpick : pickApiKey hdrKey qKey = apiKey)
    (hne : apiKey ≠ "")
    (hvalid : validKeys.contains apiKey = true)
    (hlim : kv.counters ("ratelimit:" ++ apiKey) + 1 ≤ tierLimit ((tierOf apiKey).getD "basic"))
    (hu2 : ¬ u2 = "") (hnb2 : blockedTest (commercialStrip u2) = false)
    (ho2 : urlOrigin (commercialTarget u2) = some o2) :
    ((tryFetch000 oracle (pr.1 ++ "//" ++ pr.2 ++ "/sitemap.xml")).success = true →
      openHandler oracle method (some u) (some "sitemap") =
        { status := 200,
          body := some (toBody (tryFetch000 oracle (pr.1 ++ "//" ++ pr.2 ++ "/sitemap.xml"))) }) ∧
    ((tryFetch000 oracle (pr.1 ++ "//" ++ pr.2 ++ "/sitemap.xml")).success = false →
      (tryFetch000 oracle (pr.1 ++ "//" ++ pr.2 ++ "/sitemap_index.xml")).success = true →
      openHandler oracle method (some u) (some "sitemap") =
        { status := 200,
          body := some (toBody (tryFetch000 oracle (pr.1 ++ "//" ++ pr.2 ++ "/sitemap_index.xml"))) }) ∧
    ((tryFetch000 oracle (pr.1 ++ "//" ++ pr.2 ++ "/sitemap.xml")).success = false →
      (tryFetch000 oracle (pr.1 ++ "//" ++ pr.2 ++ "/sitemap_index.xml")).success = false →
      (tryFetch000 oracle (pr.1 ++ "//" ++ pr.2 ++ "/sitemap")).success = true →
      openHandler oracle method (some u) (some "sitemap") =
        { status := 200,
          body := some (toBody (tryFetch000 oracle (pr.1 ++ "//" ++ pr.2 ++ "/sitemap"))) }) ∧
    ((tryFetch000 oracle (pr.1 ++ "//" ++ pr.2 ++ "/sitemap.xml")).success = false →
      (tryFetch000 oracle (pr.1 ++ "//" ++ pr.2 ++ "/sitemap_index.xml")).success = false →
      (tryFetch000 oracle (pr.1 ++ "//" ++ pr.2 ++ "/sitemap")).success = false →
      openHandler oracle method (some u) (some "sitemap") =
        { status := 404,
          body := some { success := some false, error := some "Sitemap not found" } }) ∧
    (commercialHandler validKeys tierOf true usageOk now today oracle method2
        hdrKey qKey (some u2) (some "sitemap") kv =
      (commercialFetch oracle (o2 ++ "/sitemap.xml") u2 now (rlHeadersOf tierOf apiKey now kv),
       postAdmissionKV usageOk today apiKey kv)) := by
  have hopen : openHandler oracle method (some u) (some "sitemap") =
      probe000 oracle (sitemapCandidates pr.1 pr.2) := by
    unfold openHandler
    rw [if_neg hm]
    simp only [Option.getD]
    rw [if_neg hu,
      if_neg (by decide : ¬ (("sitemap" : String) = "robots" ∨ ("sitemap" : String) = "llms"))]
    simp only [if_true]
    rw [hp]
  refine ⟨?_, ?_, ?_, ?_, ?_⟩
  · intro h1
    rw [hopen]
    unfold sitemapCandidates probe000
    simp only [h1, if_true]
  · intro h1 h2
    rw [hopen]
    unfold sitemapCandidates probe000
    simp only [h1, h2, Bool.false_eq_true, if_false, if_true]
    unfold probe000
    simp only [h2, if_true]
  · intro h1 h2 h3
    rw [hopen]
    unfold sitemapCandidates probe000
    simp only [h1, h2, h3, Bool.false_eq_true, if_false]
    unfold probe000
    simp only [h2, h3, Bool.false_eq_true, if_false]
    unfold probe000
    simp only [h3, if_true]
  · intro h1 h2 h3
    rw [hopen]
    unfold sitemapCandidates probe000
    simp only [h1, h2, h3, Bool.false_eq_true, if_false]
    unfold probe000
    simp only [h2, h3, Bool.false_eq_true, if_false]
    unfold probe000
    simp only [h3, Bool.false_eq_true, if_false]
    unfold probe000
    rfl
  · rw [commercialHandler_admits validKeys tierOf usageOk now today oracle method2
      hdrKey qKey (some u2) (some "sitemap") kv apiKey hm2 hpick hne hvalid hlim]
    unfold commercialMain
    simp only [Option.getD]
    rw [if_neg hu2, if_neg (by simp [hnb2]),
      if_neg (by decide : ¬ ("sitemap" : String) = "robots")]
    simp only [if_true]
    simp only [commercialTarget] at ho2
    rw [ho2]
    rfl

theorem sitemap_candidate_probing_amended_witness :
    (openHandler
        (fun v => if v = "https://example.com/sitemap_index.xml" then
            FetchEvent.ok ⟨200, "OK", some "application/xml", "<sitemapindex/>",
              "https://example.com/sitemap_index.xml"⟩
          else FetchEvent.ok ⟨404, "Not Found", some "text/html", "", v⟩)
        "GET" (some "example.com") (some "sitemap")).status = 200 ∧
    ((openHandler
        (fun v => if v = "https://example.com/sitemap_index.xml" then
            FetchEvent.ok ⟨200, "OK", some "application/xml", "<sitemapindex/>",
              "https://example.com/sitemap_index.xml"⟩
          else FetchEvent.ok ⟨404, "Not Found", some "text/html", "", v⟩)
        "GET" (some "example.com") (some "sitemap")).body.map Body.url) =
      some (some "https://example.com/sitemap_index.xml") ∧
    (commercialHandler ["k1"] (fun _ => none) true true 0 "2026-10-11"
        (fun v => if v = "https://example.com/sitemap_index.xml" then
            FetchEvent.ok ⟨200, "OK", some "application/xml", "<sitemapindex/>",
              "https://example.com/sitemap_index.xml"⟩
          else FetchEvent.ok ⟨404, "Not Found", some "text/html", "", v⟩)
        "GET" (some "k1") none (some "example.com") (some "sitemap") kv0).1.status = 404 := by
  have h := sitemap_candidate_probing_amended
    (fun v => if v = "https://example.com/sitemap_index.xml" then
        FetchEvent.ok ⟨200, "OK", some "application/xml", "<sitemapindex/>",
          "https://example.com/sitemap_index.xml"⟩
      else FetchEvent.ok ⟨404, "Not Found", some "text/html", "", v⟩)
    "GET" "example.com" ("https:", "example.com") ["k1"] (fun _ => none) true 0 "2026-10-11"
    "GET" (some "k1") none kv0 "k1" "example.com" "https://example.com"
    (by decide) (by decide) (by decide) (by decide) rfl (by decide) (by decide) (by decide)
    (by decide) (by decide) (by decide)
  have h2 := h.2.1 (by decide) (by decide)
  refine ⟨by rw [h2], by rw [h2]; decide, by rw [h.2.2.2.2]; decide⟩

/-- **C3 (counterexample).**  In the open variant, a fetch that exceeds
the 12 s timeout (an `AbortError`) is answered with HTTP 500 and body
`{success: false, error: "Timeout"}` — not HTTP 504, and with no `code`
field — because `tryFetch` returns no `statusCode` for a timeout and the
handler falls back to `result.statusCode || 500`. -/
theorem timeout_status_counterexample :
    openHandler (fun _ => FetchEvent.abortError) "GET" (some "example.com") none =
      { status := 500, body := some { success := some false, error := some "Timeout" } } ∧
    ¬ (openHandler (fun _ => FetchEvent.abortError) "GET" (some "example.com") none).status = 504 ∧
    ((openHandler (fun _ => FetchEvent.abortError) "GET" (some "example.com") none).body.map
      Body.code) = some none := by
  refine ⟨?_, ?_, ?_⟩ <;> decide

/-- **C3 (amended).**  A fetch aborted by the hard timeout (15 s) is
answered with HTTP 504 and code `TIMEOUT` by the commercial variant; the
open variant (12 s timeout) instead answers HTTP 500 with body
`{success: false, error: "Timeout"}` and no machine-readable code. -/
theorem timeout_mapping_amended
    (validKeys : List String) (tierOf : String → Option String) (usageOk : Bool)
    (now : Nat) (today : String) (oracle oracle2 : String → FetchEvent)
    (method method2 u2 : String) (hdrKey qKey : Option String) (kv : KV) (apiKey : String)
    (hm : method ≠ "OPTIONS")
    (hpick : pickApiKey hdrKey qKey = apiKey)
    (hne : apiKey ≠ "")
    (hvalid : validKeys.contains apiKey = true)
    (hlim : kv.counters ("ratelimit:" ++ apiKey) + 1 ≤ tierLimit ((tierOf apiKey).getD "basic"))
    (horacle : oracle "https://example.com" = FetchEvent.abortError)
    (hm2 : method2 ≠ "OPTIONS") (hu2 : ¬ u2 = "")
    (horacle2 : oracle2 (normalize u2) = FetchEvent.abortError) :
    ((commercialHandler validKeys tierOf true usageOk now today oracle method
        hdrKey qKey (some "example.com") none kv).1.status = 504 ∧
     ((commercialHandler validKeys tierOf true usageOk now today oracle method
        hdrKey qKey (some "example.com") none kv).1.body.map Body.code) =
       some (some "TIMEOUT")) ∧
    openHandler oracle2 method2 (some u2) none =
      { status := 500, body := some { success := some false, error := some "Timeout" } } := by
  constructor
  · rw [commercialHandler_admits validKeys tierOf usageOk now today oracle method
      hdrKey qKey (some "example.com") none kv apiKey hm hpick hne hvalid hlim,
      commercialMain_html oracle "example.com" now (rlHeadersOf tierOf apiKey now kv)
        (postAdmissionKV usageOk today apiKey kv) (by decide) (by decide)]
    dsimp only
    rw [show commercialTarget "example.com" = "https://example.com" from rfl]
    unfold commercialFetch
    rw [horacle]
    exact ⟨rfl, rfl⟩
  · unfold openHandler
    rw [if_neg hm2]
    simp only [Option.getD]
    rw [if_neg hu2,
      if_neg (by decide : ¬ (("html" : String) = "robots" ∨ ("html" : String) = "llms")),
      if_neg (by decide : ¬ ("html" : String) = "sitemap")]
    unfold finish000 tryFetch000
    rw [horacle2]
    rfl

theorem timeout_mapping_amended_witness :
    ((commercialHandler ["k1"] (fun _ => none) true true 0 "2026-10-11"
        (fun _ => FetchEvent.abortError) "GET" (some "k1") none (some "example.com") none
        kv0).1.status = 504 ∧
     ((commercialHandler ["k1"] (fun _ => none) true true 0 "2026-10-11"
        (fun _ => FetchEvent.abortError) "GET" (some "k1") none (some "example.com") none
        kv0).1.body.map Body.code) = some (some "TIMEOUT")) ∧
    openHandler (fun _ => FetchEvent.abortError) "GET" (some "example.com") none =
      { status := 500, body := some { success := some false, error := some "Timeout" } } :=
  timeout_mapping_amended ["k1"] (fun _ => none) true 0 "2026-10-11"
    (fun _ => FetchEvent.abortError) (fun _ => FetchEvent.abortError) "GET" "GET" "example.com"
    (some "k1") none kv0 "k1" (by decide) rfl (by decide) (by decide) (by decide) rfl
    (by decide) (by decide) rfl

/-- **C6 (counterexample).**  The commercial variant reads the body as
text unconditionally (`await response.text()`): a 200 response with
content-type `image/png` — which none of the text tests accept — still
has its body returned verbatim instead of the empty string. -/
theorem content_type_gating_counterexample :
    isText000 "image/png" = false ∧ isText001 "image/png" = false ∧
    ((commercialHandler ["k1"] (fun _ => none) true true 0 "2026-10-11"
        (fun _ => FetchEvent.ok ⟨200, "OK", some "image/png", "BINARYDATA", "https://example.com/"⟩)
        "GET" (some "k1") none (some "example.com") none kv0).1.body.map Body.content) =
      some (some "BINARYDATA") ∧
    ((commercialHandler ["k1"] (fun _ => none) true true 0 "2026-10-11"
        (fun _ => FetchEvent.ok ⟨200, "OK", some "image/png", "BINARYDATA", "https://example.com/"⟩)
        "GET" (some "k1") none (some "example.com") none kv0).1.body.map Body.content) ≠
      some (some "") := by
  refine ⟨rfl, rfl, ?_, ?_⟩ <;> decide

/-- **C6 (amended).**  In the open variants, the body of a 2xx response
is returned as text exactly when the content-type contains `text`
(part_000) / `text/` (part_001), `xml` or `json`, or is absent, and is
the empty string otherwise; the commercial variant returns the body as
text for every content-type. -/
theorem content_type_gating_amended
    (oracle : String → FetchEvent) (u ru u2 : String) (now : Nat)
    (hdrs : List (String × String)) (r r2 : FetchResp)
    (h : oracle u = FetchEvent.ok r) (hok : respOk r.status = true)
    (h2 : oracle ru = FetchEvent.ok r2) (hok2 : respOk r2.status = true) :
    (tryFetch000 oracle u).content =
      some (if isText000 (r.contentType.getD "") then r.body else "") ∧
    (tryFetch001 oracle u).content =
      some (if isText001 (r.contentType.getD "") then r.body else "") ∧
    (isText000 "text/html" = true ∧ isText000 "application/xml" = true ∧
     isText000 "application/json" = true ∧ isText000 "" = true ∧
     isText000 "image/png" = false ∧ isText001 "application/octet-stream" = false) ∧
    ((commercialFetch oracle ru u2 now hdrs).body.map Body.content) = some (some r2.body) := by
  refine ⟨?_, ?_, ⟨rfl, rfl, rfl, rfl, rfl, rfl⟩, ?_⟩
  · unfold tryFetch000
    rw [h]
    dsimp only
    rw [if_neg (by simp [hok])]
  · unfold tryFetch001
    rw [h]
    dsimp only
    rw [if_neg (by simp [hok])]
  · unfold commercialFetch
    rw [h2]
    dsimp only
    rw [if_neg (by simp [hok2])]
    rfl

theorem content_type_gating_amended_witness :
    (tryFetch000 (fun _ => FetchEvent.ok ⟨200, "OK", some "image/png", "BINARYDATA", "https://example.com/"⟩)
        "https://example.com").content =
      some (if isText000 ((some "image/png").getD "") then "BINARYDATA" else "") ∧
    (tryFetch001 (fun _ => FetchEvent.ok ⟨200, "OK", some "image/png", "BINARYDATA", "https://example.com/"⟩)
        "https://example.com").content =
      some (if isText001 ((some "image/png").getD "") then "BINARYDATA" else "") ∧
    (isText000 "text/html" = true ∧ isText000 "application/xml" = true ∧
     isText000 "application/json" = true ∧ isText000 "" = true ∧
     isText000 "image/png" = false ∧ isText001 "application/octet-stream" = false) ∧
    ((commercialFetch (fun _ => FetchEvent.ok ⟨200, "OK", some "image/png", "BINARYDATA", "https://example.com/"⟩)
        "https://example.com" "example.com" 0 []).body.map Body.content) =
      some (some "BINARYDATA") :=
  content_type_gating_amended
    (fun _ => FetchEvent.ok ⟨200, "OK", some "image/png", "BINARYDATA", "https://example.com/"⟩)
    "https://example.com" "https://example.com" "example.com" 0 []
    ⟨200, "OK", some "image/png", "BINARYDATA", "https://example.com/"⟩
    ⟨200, "OK", some "image/png", "BINARYDATA", "https://example.com/"⟩
    rfl (by decide) rfl (by decide)

/-- **C7 (counterexample).**  The commercial variant's normalization is
not the identity on absolute URLs: `https://example.com/` parses as an
absolute URL but is rewritten to `https://example.com` (scheme stripped,
trailing slash dropped, `https://` re-prepended). -/
theorem normalize_unchanged_counterexample :
    jsURLParses "https://example.com/" = true ∧
    commercialTarget "https://example.com/" = "https://example.com" ∧
    commercialTarget "https://example.com/" ≠ "https://example.com/" := by
  refine ⟨by decide, by decide, by decide⟩

/-- **C7 (amended).**  The open variants' `normalize` returns any string
the URL constructor accepts unchanged and maps the bare domain
`example.com` to `https://example.com`; the commercial variant also maps
`example.com` to `https://example.com`, but it rebuilds every input
(strip scheme and trailing slash, re-prepend `https://`), so absolute
URLs are not returned unchanged (e.g. a trailing slash is dropped). -/
theorem normalize_behaviour_amended (u : String) (h : jsURLParses u = true) :
    normalize u = u ∧
    normalize "example.com" = "https://example.com" ∧
    commercialTarget "example.com" = "https://example.com" ∧
    commercialTarget "https://example.com/" = "https://example.com" := by
  refine ⟨?_, by decide, by decide, by decide⟩
  unfold normalize
  rw [if_pos h]

theorem normalize_behaviour_amended_witness :
    normalize "https://example.com" = "https://example.com" ∧
    normalize "example.com" = "https://example.com" ∧
    commercialTarget "example.com" = "https://example.com" ∧
    commercialTarget "https://example.com/" = "https://example.com" :=
  normalize_behaviour_amended "https://example.com" (by decide)

/-- **C8 (counterexample).**  A commercial request with no input at all
(no API key, no url) is answered 401 `MISSING_API_KEY`, not 400
`MISSING_URL`: the key check runs before the url check. -/
theorem missing_url_variant_counterexample :
    (commercialHandler ["k1"] (fun _ => none) true true 0 "2026-10-11"
        (fun _ => FetchEvent.abortError) "GET" none none none none kv0).1.status = 401 ∧
    ((commercialHandler ["k1"] (fun _ => none) true true 0 "2026-10-11"
        (fun _ => FetchEvent.abortError) "GET" none none none none kv0).1.body.map Body.code) =
      some (some "MISSING_API_KEY") ∧
    ¬ (commercialHandler ["k1"] (fun _ => none) true true 0 "2026-10-11"
        (fun _ => FetchEvent.abortError) "GET" none none none none kv0).1.status = 400 := by
  refine ⟨?_, ?_, ?_⟩ <;> decide

/-- **C8 (amended).**  A request omitting `url`: the open variant answers
HTTP 200 with the readiness payload; the commercial variant, when the
request carries no other input, answers HTTP 401 `MISSING_API_KEY` (the
key check precedes the url check), and answers HTTP 400 `MISSING_URL`
only once a valid API key is supplied. -/
theorem missing_url_variant_amended
    (oracle oracle2 oracle3 : String → FetchEvent) (method method2 method3 : String)
    (typeQ typeQ2 typeQ3 : Option String)
    (validKeys : List String) (tierOf : String → Option String) (kvOk usageOk : Bool)
    (now : Nat) (today : String) (kv : KV)
    (validKeys3 : List String) (tierOf3 : String → Option String) (usageOk3 : Bool)
    (now3 : Nat) (today3 : String) (kv3 : KV) (hdrKey3 qKey3 : Option String) (apiKey3 : String)
    (hm : method ≠ "OPTIONS") (hm2 : method2 ≠ "OPTIONS") (hm3 : method3 ≠ "OPTIONS")
    (hpick3 : pickApiKey hdrKey3 qKey3 = apiKey3)
    (hne3 : apiKey3 ≠ "")
    (hvalid3 : validKeys3.contains apiKey3 = true)
    (hlim3 : kv3.counters ("ratelimit:" ++ apiKey3) + 1 ≤
      tierLimit ((tierOf3 apiKey3).getD "basic")) :
    openHandler oracle method none typeQ = { status := 200, body := some readyBody000 } ∧
    commercialHandler validKeys tierOf kvOk usageOk now today oracle2 method2
        none none none typeQ2 kv = ({ status := 401, body := some missingKeyBody }, kv) ∧
    ((commercialHandler validKeys3 tierOf3 true usageOk3 now3 today3 oracle3 method3
        hdrKey3 qKey3 none typeQ3 kv3).1.status = 400 ∧
     ((commercialHandler validKeys3 tierOf3 true usageOk3 now3 today3 oracle3 method3
        hdrKey3 qKey3 none typeQ3 kv3).1.body.map Body.code) = some (some "MISSING_URL")) := by
  refine ⟨?_, ?_, ?_⟩
  · unfold openHandler
    rw [if_neg hm]
    simp only [Option.getD]
    simp only [if_true]
  · unfold commercialHandler
    rw [if_neg hm2]
    simp [pickApiKey]
  · rw [commercialHandler_admits validKeys3 tierOf3 usageOk3 now3 today3 oracle3 method3
      hdrKey3 qKey3 none typeQ3 kv3 apiKey3 hm3 hpick3 hne3 hvalid3 hlim3]
    unfold commercialMain
    simp only [Option.getD]
    simp only [if_true]
    constructor <;> trivial

theorem missing_url_variant_amended_witness :
    openHandler (fun _ => FetchEvent.abortError) "GET" none none =
      { status := 200, body := some readyBody000 } ∧
    commercialHandler ["k1"] (fun _ => none) true true 0 "2026-10-11"
        (fun _ => FetchEvent.abortError) "GET" none none none none kv0 =
      ({ status := 401, body := some missingKeyBody }, kv0) ∧
    ((commercialHandler ["k1"] (fun _ => none) true true 0 "2026-10-11"
        (fun _ => FetchEvent.abortError) "GET" (some "k1") none none none kv0).1.status = 400 ∧
     ((commercialHandler ["k1"] (fun _ => none) true true 0 "2026-10-11"
        (fun _ => FetchEvent.abortError) "GET" (some "k1") none none none kv0).1.body.map Body.code) =
       some (some "MISSING_URL")) :=
  missing_url_variant_amended (fun _ => FetchEvent.abortError) (fun _ => FetchEvent.abortError)
    (fun _ => FetchEvent.abortError) "GET" "GET" "GET" none none none
    ["k1"] (fun _ => none) true true 0 "2026-10-11" kv0
    ["k1"] (fun _ => none) true 0 "2026-10-11" kv0 (some "k1") none "k1"
    (by decide) (by decide) (by decide) rfl (by decide) (by decide) (by decide)

theorem commercialFetch_envelope (oracle : String → FetchEvent)
    (ru u : String) (now : Nat) (hdrs : List (String × String)) :
    ((commercialFetch oracle ru u now hdrs).status ≥ 400 →
      ((commercialFetch oracle ru u now hdrs).body.map errorShape) = some true) ∧
    ((commercialFetch oracle ru u now hdrs).status = 200 →
      ((commercialFetch oracle ru u now hdrs).body.map Body.success) = some (some true)) := by
  unfold commercialFetch
  cases h : oracle ru with
  | abortError =>
    exact ⟨fun _ => by simp [timeoutBody, errorShape], fun hc => by simp at hc⟩
  | otherError m =>
    exact ⟨fun _ => by simp [internalErrorBody, errorShape], fun hc => by simp at hc⟩
  | ok r =>
    dsimp only
    split
    · constructor
      · intro _
        simp [fetchFailedBody, errorShape]
      · intro h200
        rename_i hnok
        have hr : r.status = 200 := h200
        rw [hr] at hnok
        exact absurd hnok (by decide)
    · exact ⟨fun hc => by simp at hc, fun _ => by simp [commercialSuccessBody]⟩

theorem commercialMain_envelope (oracle : String → FetchEvent)
    (urlQ typeQ : Option String) (now : Nat) (hdrs : List (String × String)) (kv : KV) :
    (((commercialMain oracle urlQ typeQ now hdrs kv).1.status ≥ 400 →
      ((commercialMain oracle urlQ typeQ now hdrs kv).1.body.map errorShape) = some true)) ∧
    ((commercialMain oracle urlQ typeQ now hdrs kv).1.status = 200 →
      ((commercialMain oracle urlQ typeQ now hdrs kv).1.body.map Body.success) =
        some (some true)) := by
  unfold commercialMain
  dsimp only
  split
  · exact ⟨fun _ => by simp [missingUrlBody, errorShape], fun hc => by simp at hc⟩
  · split
    · exact ⟨fun _ => by simp [blockedBody, errorShape], fun hc => by simp at hc⟩
    · split
      · exact ⟨fun _ => by simp [internalErrorBody, errorShape], fun hc => by simp at hc⟩
      · exact commercialFetch_envelope oracle _ _ now hdrs

theorem rateLimitStep_inl_shape (tierOf : String → Option String) (kvOk : Bool)
    (now : Nat) (apiKey : String) (kv : KV) (out : Resp × KV)
    (h : rateLimitStep tierOf kvOk now apiKey kv = Sum.inl out) :
    out.1.status = 429 ∧ (out.1.body.map errorShape) = some true := by
  unfold rateLimitStep at h
  split at h
  · exact absurd h (by simp)
  · dsimp only at h
    split at h
    · cases h
      exact ⟨rfl, by simp [rateLimitBody, errorShape]⟩
    · exact absurd h (by simp)

theorem finish000_success_isSome (oracle : String → FetchEvent) (target : String) :
    ((finish000 oracle target).body.map (fun b => b.success.isSome && b.code.isNone)) =
      some true := by
  unfold finish000
  dsimp only
  split
  · simp [toBody]
  · simp

theorem probe000_success_isSome (oracle : String → FetchEvent) (l : List String) :
    ((probe000 oracle l).body.map (fun b => b.success.isSome && b.code.isNone)) =
      some true := by
  induction l with
  | nil => simp [probe000]
  | cons c rest ih =>
    unfold probe000
    dsimp only
    split
    · simp [toBody]
    · exact ih

/-- **C5 (counterexample).**  The commercial 401 `MISSING_API_KEY`
response is an error envelope with `error`, `code` and `message` but no
`success` field at all, refuting "every response body contains at minimum
a boolean `success`". -/
theorem response_envelope_counterexample :
    (commercialHandler ["k1"] (fun _ => none) true true 0 "2026-10-11"
        (fun _ => FetchEvent.abortError) "GET" none none none none kv0).1.status = 401 ∧
    ((commercialHandler ["k1"] (fun _ => none) true true 0 "2026-10-11"
        (fun _ => FetchEvent.abortError) "GET" none none none none kv0).1.body.map
      Body.success) = some none ∧
    ((commercialHandler ["k1"] (fun _ => none) true true 0 "2026-10-11"
        (fun _ => FetchEvent.abortError) "GET" none none none none kv0).1.body.map
      errorShape) = some true := by
  refine ⟨?_, ?_, ?_⟩ <;> decide

/-- **C5 (amended).**  Envelope shape by variant: every open-variant
(part_000) response other than the OPTIONS preflight is a JSON object
with a boolean `success` (and no machine-readable `code`); every
commercial error response (status ≥ 400) carries `error`, `code` and
`message` but no `success`; the commercial 200 response carries
`success = true`. -/
theorem response_envelope_amended
    (oracle : String → FetchEvent) (method : String) (urlQ typeQ : Option String)
    (validKeys : List String) (tierOf : String → Option String) (kvOk usageOk : Bool)
    (now : Nat) (today : String) (oracle2 : String → FetchEvent) (method2 : String)
    (hdrKey qKey urlQ2 typeQ2 : Option String) (kv : KV)
    (hm : method ≠ "OPTIONS") (hm2 : method2 ≠ "OPTIONS") :
    ((openHandler oracle method urlQ typeQ).body.map
        (fun b => b.success.isSome && b.code.isNone)) = some true ∧
    ((commercialHandler validKeys tierOf kvOk usageOk now today oracle2 method2
        hdrKey qKey urlQ2 typeQ2 kv).1.status ≥ 400 →
      ((commercialHandler validKeys tierOf kvOk usageOk now today oracle2 method2
        hdrKey qKey urlQ2 typeQ2 kv).1.body.map errorShape) = some true) ∧
    ((commercialHandler validKeys tierOf kvOk usageOk now today oracle2 method2
        hdrKey qKey urlQ2 typeQ2 kv).1.status = 200 →
      ((commercialHandler validKeys tierOf kvOk usageOk now today oracle2 method2
        hdrKey qKey urlQ2 typeQ2 kv).1.body.map Body.success) = some (some true)) := by
  refine ⟨?_, ?_⟩
  · unfold openHandler
    rw [if_neg hm]
    dsimp only
    split
    · simp [readyBody000]
    · split
      · split
        · simp
        · exact finish000_success_isSome ..
      · split
        · split
          · simp
          · exact probe000_success_isSome ..
        · exact finish000_success_isSome ..
  · unfold commercialHandler
    rw [if_neg hm2]
    dsimp only
    split
    · exact ⟨fun _ => by simp [missingKeyBody, errorShape], fun hc => by simp at hc⟩
    · split
      · exact ⟨fun _ => by simp [invalidKeyBody, errorShape], fun hc => by simp at hc⟩
      · split
        · rename_i out heq
          have hs := rateLimitStep_inl_shape tierOf kvOk now
            (pickApiKey hdrKey qKey) kv out heq
          refine ⟨fun _ => hs.2, fun h200 => ?_⟩
          rw [hs.1] at h200
          exact absurd h200 (by decide)
        · exact commercialMain_envelope oracle2 urlQ2 typeQ2 now _ _

theorem response_envelope_amended_witness :
    ((openHandler (fun _ => FetchEvent.abortError) "GET" none none).body.map
        (fun b => b.success.isSome && b.code.isNone)) = some true ∧
    ((commercialHandler ["k1"] (fun _ => none) true true 0 "2026-10-11"
        (fun _ => FetchEvent.abortError) "GET" none none none none kv0).1.status ≥ 400 →
      ((commercialHandler ["k1"] (fun _ => none) true true 0 "2026-10-11"
        (fun _ => FetchEvent.abortError) "GET" none none none none kv0).1.body.map errorShape) =
        some true) ∧
    ((commercialHandler ["k1"] (fun _ => none) true true 0 "2026-10-11"
        (fun _ => FetchEvent.abortError) "GET" none none none none kv0).1.status = 200 →
      ((commercialHandler ["k1"] (fun _ => none) true true 0 "2026-10-11"
        (fun _ => FetchEvent.abortError) "GET" none none none none kv0).1.body.map Body.success) =
        some (some true)) :=
  response_envelope_amended (fun _ => FetchEvent.abortError) "GET" none none
    ["k1"] (fun _ => none) true true 0 "2026-10-11" (fun _ => FetchEvent.abortError) "GET"
    none none none none kv0 (by decide) (by decide)

end LLMVis
